import Mathlib

/-!
Shallow embedding of the extraction engine of `src/main.py` (sectorETF).

Page text is modelled as `List Char`; Python floats are modelled as exact
rationals (`ℚ`), so a value such as `93602.55 * 1e6` is the exact rational
`93602550000`.  Each Python regex used by the source is embedded as a
hand-written matcher with Python `re.search` semantics (leftmost starting
position, greedy/lazy quantifiers as in the pattern); for each pattern the
greedy pieces are committed exactly where Python's backtracking could never
produce a different match (the character classes involved are disjoint), as
noted at each definition.
-/

set_option maxRecDepth 20000

namespace SectorETF

attribute [local semireducible] Rat.add Rat.mul Rat.inv

/-- Chars of a string literal. -/
def cs (s : String) : List Char := s.data

/-- ASCII whitespace, the characters matched by `\s` on the source's pages. -/
def isWsCh (c : Char) : Bool :=
  c == ' ' || c == '\t' || c == '\n' || c == '\r' || c == '\x0b' || c == '\x0c'

def isDigitCh (c : Char) : Bool := 48 ≤ c.toNat && c.toNat ≤ 57

def isAlphaCh (c : Char) : Bool :=
  (65 ≤ c.toNat && c.toNat ≤ 90) || (97 ≤ c.toNat && c.toNat ≤ 122)

/-- Word character for `\b`: `[A-Za-z0-9_]`. -/
def isWordCh (c : Char) : Bool := isAlphaCh c || isDigitCh c || c == '_'

/-- ASCII lower-casing, the effect of `re.IGNORECASE` on ASCII text. -/
def lowerCh (c : Char) : Char :=
  if 65 ≤ c.toNat && c.toNat ≤ 90 then Char.ofNat (c.toNat + 32) else c

/-- ASCII upper-casing, `str.upper` on ASCII text (used by `unit_to_mult`). -/
def upperCh (c : Char) : Char :=
  if 97 ≤ c.toNat && c.toNat ≤ 122 then Char.ofNat (c.toNat - 32) else c

/-- `re.sub(r"\s+", " ", text)`: collapse every whitespace run to one space. -/
def collapseWs : List Char → List Char
  | [] => []
  | [c] => if isWsCh c then [' '] else [c]
  | a :: b :: rest =>
    if isWsCh a then
      if isWsCh b then collapseWs (b :: rest)
      else ' ' :: collapseWs (b :: rest)
    else a :: collapseWs (b :: rest)

/-- `\s*`: drop leading whitespace. -/
def dropWs (s : List Char) : List Char := s.dropWhile isWsCh

/-- `\s+` then `\s*`-normalisation: require at least one leading whitespace
character, then drop the whole run.  (Equivalent to Python's greedy `\s+`:
the following pattern pieces never match a whitespace character.) -/
def matchWs1Drop : List Char → Option (List Char)
  | c :: rest => if isWsCh c then some (dropWs rest) else none
  | [] => none

/-- Case-insensitive literal match of `pat` at the head of `s`; returns the
rest of `s` on success. -/
def matchLitCI : List Char → List Char → Option (List Char)
  | [], s => some s
  | _ :: _, [] => none
  | p :: ps, c :: rest =>
    if lowerCh p = lowerCh c then matchLitCI ps rest else none

/-- `re.search` position scan: try `f` at every start position, leftmost
success wins. -/
def searchBy {α : Type} (f : List Char → Option α) : List Char → Option α
  | [] => f []
  | s@(_ :: rest) =>
    match f s with
    | some v => some v
    | none => searchBy f rest

/-- Whether a case-insensitive occurrence of `pat` exists in `s`
(`pat.lower() in s.lower()`). -/
def containsCI (pat s : List Char) : Bool :=
  (searchBy (matchLitCI pat) s).isSome

/-- `int` of a digit string (most significant digit first). -/
def digitsToNat (l : List Char) : Nat :=
  l.foldl (fun a c => a * 10 + (c.toNat - 48)) 0

def isNumCh (c : Char) : Bool := isDigitCh c || c == ','

/-- The group `([\d,]+(?:\.\d+)?)` at the head of `s`: greedy run of digits
and commas, then an optional fraction.  Returns (captured token, rest).
No backtracking is needed: the characters that may follow the group
(whitespace, a unit letter, or nothing) are disjoint from `[\d,.]`. -/
def matchNumTok (s : List Char) : Option (List Char × List Char) :=
  let ds := s.takeWhile isNumCh
  let r := s.dropWhile isNumCh
  if ds.isEmpty then none
  else
    match r with
    | c :: r2 =>
      if c = '.' then
        let fs := r2.takeWhile isDigitCh
        let r3 := r2.dropWhile isDigitCh
        if fs.isEmpty then some (ds, r) else some (ds ++ '.' :: fs, r3)
      else some (ds, r)
    | [] => some (ds, [])

/-- Python `float(tok.replace(",", ""))` on a token drawn from the regex
class `[\d,.]` (the only shapes the source ever passes): strips commas,
then reads `digits`, `digits.digits`, `.digits` or `digits.`; anything
else (in particular an empty digit string such as from `","`) is a
`ValueError`, i.e. `none`. -/
def pyFloatNum (tok : List Char) : Option ℚ :=
  let s := tok.filter (fun c => !(c == ','))
  let ip := s.takeWhile isDigitCh
  let r := s.dropWhile isDigitCh
  match r with
  | [] => if ip.isEmpty then none else some (digitsToNat ip : ℚ)
  | c :: fr =>
    if c = '.' then
      let fp := fr.takeWhile isDigitCh
      let r2 := fr.dropWhile isDigitCh
      if r2.isEmpty && !(ip.isEmpty && fp.isEmpty) then
        some ((digitsToNat ip : ℚ) + (digitsToNat fp : ℚ) / (10 : ℚ) ^ fp.length)
      else none
    else none

/-- `unit_to_mult` from the source: `{"K": 1e3, "M": 1e6, "B": 1e9}.get(u, 1.0)`
after upper-casing. -/
def unit_to_mult (unit : List Char) : ℚ :=
  match unit.map upperCh with
  | ['K'] => 1000
  | ['M'] => 1000000
  | ['B'] => 1000000000
  | _ => 1

/-- `parse_unit_amount` from the source: `float(num.replace(",", ""))`
(with a caught `ValueError` as `none`) times the unit multiplier. -/
def parse_unit_amount (num unit : List Char) : Option ℚ :=
  (pyFloatNum num).map (fun x => x * unit_to_mult unit)

def isUnitCh (c : Char) : Bool :=
  c == 'B' || c == 'b' || c == 'M' || c == 'm' || c == 'K' || c == 'k'

/-- `\b` after a word character: next char absent or not a word char. -/
def wordBoundaryAfter : List Char → Bool
  | [] => true
  | c :: _ => !(isWordCh c)

/-- `AMT_RE` = `\$?\s*([\d,]+(?:\.\d+)?)\s*([BbMmKk])\b` matched at the head
of `s`; returns (number token, unit char). -/
def matchAMTAt (s : List Char) : Option (List Char × Char) :=
  let s1 := match s with
    | c :: r => if c = '$' then r else s
    | [] => s
  let s2 := dropWs s1
  match matchNumTok s2 with
  | none => none
  | some (num, r) =>
    match dropWs r with
    | u :: rest =>
      if isUnitCh u && wordBoundaryAfter rest then some (num, u) else none
    | [] => none

/-- First `AMT_RE` match anywhere in `s` (`AMT_RE.search`). -/
def searchAMT (s : List Char) : Option (List Char × Char) :=
  searchBy matchAMTAt s

/-- The source's amount-parsing stage taken on its own (the spec's
`parse_amount`): search `AMT_RE` in the window, then `parse_unit_amount`
on the captured groups. -/
def parse_amount (s : List Char) : Option ℚ :=
  match searchAMT s with
  | none => none
  | some (num, u) => parse_unit_amount num [u]

/-- `{re.escape(label)}\s+` followed by `AMT_RE`, matched at the head of `s`
(the pattern of `extract_labeled_amount`). -/
def matchLabelAmtAt (label s : List Char) : Option (List Char × Char) :=
  match matchLitCI label s with
  | none => none
  | some r =>
    match matchWs1Drop r with
    | none => none
    | some r2 => matchAMTAt r2

/-- `extract_labeled_amount` from the source: whitespace-collapse, search the
label-then-amount pattern case-insensitively, and parse the groups. -/
def extract_labeled_amount (text label : List Char) : Option ℚ :=
  match searchBy (matchLabelAmtAt label) (collapseWs text) with
  | none => none
  | some (num, u) => parse_unit_amount num [u]

def navLit : List Char := cs "NAV"

def navFullLit : List Char := cs "Net Asset Value"

/-- `\$\s*([\d,]+(?:\.\d+)?)` at the head of `s`: a dollar sign, optional
whitespace, then the captured number token. -/
def matchDollarNum : List Char → Option (List Char)
  | [] => none
  | c :: r => if c = '$' then (matchNumTok (dropWs r)).map (fun p => p.1) else none

/-- The lazy gap `.{0,n}?` before `\$\s*(num)`: try the dollar-number match at
offsets 0, 1, …, n in increasing order (lazy semantics).  After whitespace
collapse the text has no newline, so `.` matches every character. -/
def gapDollarNum : Nat → List Char → Option (List Char)
  | 0, s => matchDollarNum s
  | n + 1, s =>
    match matchDollarNum s with
    | some v => some v
    | none =>
      match s with
      | [] => none
      | _ :: rest => gapDollarNum n rest

/-- `\bNAV\b.{0,200}?\$\s*(num)` anchored at the head of `s` (the leading
`\b` is checked by the caller via the previous character). -/
def matchNavHere (s : List Char) : Option (List Char) :=
  match matchLitCI navLit s with
  | none => none
  | some r => if wordBoundaryAfter r then gapDollarNum 200 r else none

/-- `re.search` of `\bNAV\b.{0,200}?\$\s*(num)`: scan positions tracking
whether the previous character is a word character (for the leading `\b`). -/
def searchNav1 : Bool → List Char → Option (List Char)
  | _, [] => none
  | prevWord, c :: rest =>
    match (if prevWord then none else matchNavHere (c :: rest)) with
    | some v => some v
    | none => searchNav1 (isWordCh c) rest

/-- `Net Asset Value.{0,200}?\$\s*(num)` at the head of `s` (no `\b`). -/
def matchNav2Here (s : List Char) : Option (List Char) :=
  match matchLitCI navFullLit s with
  | none => none
  | some r => gapDollarNum 200 r

/-- `extract_nav` from the source: collapse whitespace, search the `NAV`
pattern, fall back to the `Net Asset Value` pattern, then `float` the
captured group (a caught `ValueError` is `none`, with no re-search). -/
def extract_nav (text : List Char) : Option ℚ :=
  let t := collapseWs text
  match searchNav1 false t with
  | some num => pyFloatNum num
  | none =>
    match searchBy matchNav2Here t with
    | some num => pyFloatNum num
    | none => none

/-! ### Date resolver (`extract_asof_date`) -/

/-- A Python `datetime.date`: `strptime` only constructs it when year, month
and day are in range, else it raises `ValueError`. -/
structure PyDate where
  year : Nat
  month : Nat
  day : Nat
deriving DecidableEq

def isLeapYear (y : Nat) : Bool :=
  y % 4 == 0 && (y % 100 != 0 || y % 400 == 0)

def daysInMonth (y m : Nat) : Nat :=
  if m = 2 then (if isLeapYear y then 29 else 28)
  else if m = 4 || m = 6 || m = 9 || m = 11 then 30
  else 31

/-- `datetime.date(y, m, d)`: `none` models the `ValueError` on an
implausible month/day/year. -/
def mkDate (y m d : Nat) : Option PyDate :=
  if 1 ≤ y && y ≤ 9999 && 1 ≤ m && m ≤ 12 && 1 ≤ d && d ≤ daysInMonth y m then
    some ⟨y, m, d⟩
  else none

/-- `%b` month abbreviations, matched case-insensitively by `strptime`. -/
def monthFromAbbrev (tok : List Char) : Option Nat :=
  let l := tok.map lowerCh
  if l = cs "jan" then some 1 else if l = cs "feb" then some 2
  else if l = cs "mar" then some 3 else if l = cs "apr" then some 4
  else if l = cs "may" then some 5 else if l = cs "jun" then some 6
  else if l = cs "jul" then some 7 else if l = cs "aug" then some 8
  else if l = cs "sep" then some 9 else if l = cs "oct" then some 10
  else if l = cs "nov" then some 11 else if l = cs "dec" then some 12
  else none

/-- `%B` full month names, matched case-insensitively by `strptime`. -/
def monthFromFull (tok : List Char) : Option Nat :=
  let l := tok.map lowerCh
  if l = cs "january" then some 1 else if l = cs "february" then some 2
  else if l = cs "march" then some 3 else if l = cs "april" then some 4
  else if l = cs "may" then some 5 else if l = cs "june" then some 6
  else if l = cs "july" then some 7 else if l = cs "august" then some 8
  else if l = cs "september" then some 9 else if l = cs "october" then some 10
  else if l = cs "november" then some 11 else if l = cs "december" then some 12
  else none

/-- The three tokens captured by a date pattern: month token, day digits,
year digits (the captured substring with its separators dropped; after
whitespace collapse the separators carry no information). -/
structure DateCap where
  monthTok : List Char
  dayTok : List Char
  yearTok : List Char
deriving DecidableEq

def fundAsOfLit : List Char := cs "Fund Net Asset Value as of"

def asOfLit : List Char := cs "As of"

/-- `[A-Za-z]{3}` followed (per the continuation `\s+`) by whitespace:
exactly three letters whose follower is not a letter.  A fourth letter makes
the mandatory `\s+` fail, so no backtracking arises. -/
def take3Alpha : List Char → Option (List Char × List Char)
  | a :: b :: c :: r =>
    if isAlphaCh a && isAlphaCh b && isAlphaCh c then some ([a, b, c], r) else none
  | _ => none

/-- `[A-Za-z]{3,9}` followed (per the continuation `\s+`) by whitespace: the
greedy alpha run must have length 3–9; shorter backtracked runs end at a
letter where `\s+` fails, so the run is committed. -/
def takeAlphaRun39 (s : List Char) : Option (List Char × List Char) :=
  let run := s.takeWhile isAlphaCh
  let rest := s.dropWhile isAlphaCh
  if 3 ≤ run.length && run.length ≤ 9 then some (run, rest) else none

/-- `\d{1,2}` followed by `\s+` (pattern 1's day): greedy two digits, else
one; the one-digit fallback only applies when the second char is not a
digit (a digit there makes `\s+` fail either way). -/
def matchDayWs : List Char → Option (List Char × List Char)
  | d1 :: rest =>
    if isDigitCh d1 then
      match rest with
      | d2 :: r2 =>
        if isDigitCh d2 then
          match matchWs1Drop r2 with
          | some r3 => some ([d1, d2], r3)
          | none => none
        else
          (matchWs1Drop rest).map (fun r => ([d1], r))
      | [] => none
    else none
  | [] => none

/-- `,?\s+`: an optional comma then mandatory whitespace.  If the comma is
present the whitespace must follow it (backtracking to the no-comma branch
would put `\s+` at the comma, which fails). -/
def matchSepComma : List Char → Option (List Char)
  | ',' :: r => matchWs1Drop r
  | s => matchWs1Drop s

/-- `\d{1,2}` followed by `,?\s+` (pattern 2's day). -/
def matchDaySep : List Char → Option (List Char × List Char)
  | d1 :: rest =>
    if isDigitCh d1 then
      match rest with
      | d2 :: r2 =>
        if isDigitCh d2 then
          (matchSepComma r2).map (fun r => ([d1, d2], r))
        else
          (matchSepComma rest).map (fun r => ([d1], r))
      | [] => none
    else none
  | [] => none

/-- `\d{4}` closing a capture group at the end of the pattern: the first
four digits, with no constraint on what follows. -/
def take4Digits : List Char → Option (List Char)
  | a :: b :: c :: d :: _ =>
    if isDigitCh a && isDigitCh b && isDigitCh c && isDigitCh d then
      some [a, b, c, d]
    else none
  | _ => none

/-- `\d{1,2}` followed by `/` (pattern 3's month and day): greedy two
digits then the slash, else one digit then the slash. -/
def take2DigitsSlash : List Char → Option (List Char × List Char)
  | d1 :: rest =>
    if isDigitCh d1 then
      match rest with
      | d2 :: r2 =>
        if isDigitCh d2 then
          match r2 with
          | '/' :: r3 => some ([d1, d2], r3)
          | _ => none
        else
          match rest with
          | '/' :: r3 => some ([d1], r3)
          | _ => none
      | [] => none
    else none
  | [] => none

/-- Pattern 1 at the head of `s`:
`Fund Net Asset Value as of\s+([A-Za-z]{3}\s+\d{1,2}\s+\d{4})`. -/
def matchPat1At (s : List Char) : Option DateCap :=
  match matchLitCI fundAsOfLit s with
  | none => none
  | some r =>
    match matchWs1Drop r with
    | none => none
    | some r1 =>
      match take3Alpha r1 with
      | none => none
      | some (mon, r2) =>
        match matchWs1Drop r2 with
        | none => none
        | some r3 =>
          match matchDayWs r3 with
          | none => none
          | some (day, r4) =>
            match take4Digits r4 with
            | none => none
            | some y => some ⟨mon, day, y⟩

/-- Pattern 2 at the head of `s`:
`As of\s+([A-Za-z]{3,9}\s+\d{1,2},?\s+\d{4})`. -/
def matchPat2At (s : List Char) : Option DateCap :=
  match matchLitCI asOfLit s with
  | none => none
  | some r =>
    match matchWs1Drop r with
    | none => none
    | some r1 =>
      match takeAlphaRun39 r1 with
      | none => none
      | some (mon, r2) =>
        match matchWs1Drop r2 with
        | none => none
        | some r3 =>
          match matchDaySep r3 with
          | none => none
          | some (day, r4) =>
            match take4Digits r4 with
            | none => none
            | some y => some ⟨mon, day, y⟩

/-- Pattern 3 at the head of `s`: `As of\s+(\d{1,2}/\d{1,2}/\d{4})`. -/
def matchPat3At (s : List Char) : Option DateCap :=
  match matchLitCI asOfLit s with
  | none => none
  | some r =>
    match matchWs1Drop r with
    | none => none
    | some r1 =>
      match take2DigitsSlash r1 with
      | none => none
      | some (mon, r2) =>
        match take2DigitsSlash r2 with
        | none => none
        | some (day, r3) =>
          match take4Digits r3 with
          | none => none
          | some y => some ⟨mon, day, y⟩

def searchPat1 (t : List Char) : Option DateCap := searchBy matchPat1At t

def searchPat2 (t : List Char) : Option DateCap := searchBy matchPat2At t

def searchPat3 (t : List Char) : Option DateCap := searchBy matchPat3At t

/-- `strptime(g, "%b %d %Y").date()` on pattern 1's capture: abbreviated
month, then the calendar-validity check; `none` is the caught `ValueError`. -/
def parseDate1 (c : DateCap) : Option PyDate :=
  match monthFromAbbrev c.monthTok with
  | none => none
  | some m => mkDate (digitsToNat c.yearTok) m (digitsToNat c.dayTok)

/-- Pattern 2's parse: the comma-stripped capture is tried against
`%b %d %Y` then `%B %d %Y`; equivalently the month token is looked up as an
abbreviation first, then as a full name, and the same calendar-validity
check applies. -/
def parseDate2 (c : DateCap) : Option PyDate :=
  match monthFromAbbrev c.monthTok with
  | some m => mkDate (digitsToNat c.yearTok) m (digitsToNat c.dayTok)
  | none =>
    match monthFromFull c.monthTok with
    | some m => mkDate (digitsToNat c.yearTok) m (digitsToNat c.dayTok)
    | none => none

/-- `strptime(g, "%m/%d/%Y").date()` on pattern 3's capture. -/
def parseDate3 (c : DateCap) : Option PyDate :=
  mkDate (digitsToNat c.yearTok) (digitsToNat c.monthTok) (digitsToNat c.dayTok)

/-- Pattern 1's contribution: a regex match whose capture fails date
parsing yields `none`, exactly the source's caught `ValueError` plus fall
through. -/
def tryPat1 (t : List Char) : Option PyDate := (searchPat1 t).bind parseDate1

def tryPat2 (t : List Char) : Option PyDate := (searchPat2 t).bind parseDate2

def tryPat3 (t : List Char) : Option PyDate := (searchPat3 t).bind parseDate3

/-- Patterns 2 then 3, the tail of the source's priority chain. -/
def extractP23 (t : List Char) : Option PyDate :=
  match tryPat2 t with
  | some d => some d
  | none => tryPat3 t

/-- `extract_asof_date` after its whitespace collapse: the three patterns
in priority order. -/
def extract_asof_core (t : List Char) : Option PyDate :=
  match tryPat1 t with
  | some d => some d
  | none => extractP23 t

/-- `extract_asof_date` from the source. -/
def extract_asof_date (text : List Char) : Option PyDate :=
  extract_asof_core (collapseWs text)

example : extract_asof_date (cs "Fund Net Asset Value as of Jan 15 2026 x") =
    some ⟨2026, 1, 15⟩ := by decide
example : extract_asof_date (cs "As of Jan 15, 2026") = some ⟨2026, 1, 15⟩ := by decide
example : extract_asof_date (cs "As of January 15 2026") = some ⟨2026, 1, 15⟩ := by decide
example : extract_asof_date (cs "As of 01/15/2026") = some ⟨2026, 1, 15⟩ := by decide
example : extract_asof_date (cs "random text with no date") = none := by decide
example : extract_asof_date (cs "Fund Net Asset Value as of Feb 30 2026") = none := by decide

example : parse_amount (cs "$93,602.55 M") = some 93602550000 := by decide
example : parse_amount (cs "643.66 M") = some 643660000 := by decide
example : parse_amount (cs "145.42") = none := by decide
example : extract_labeled_amount (cs "Shares Outstanding 643.66 M") (cs "Shares Outstanding") =
    some 643660000 := by decide
example : extract_nav (cs "NAV $145.42") = some (14542 / 100 : ℚ) := by decide

/-! ### Snapshot assembler (`fetch_snapshot`'s extraction stage) -/

mutual
/-- A parsed `__NEXT_DATA__` JSON payload (the result of a successful
`json.loads` in `dig_next_data`); only its truthiness reaches the
snapshot, so a minimal value type suffices. -/
inductive MiniJson where
  | jstr : List Char → MiniJson
  | jobj : MiniJsonFields → MiniJson

/-- The field list of a `MiniJson` object. -/
inductive MiniJsonFields where
  | nil : MiniJsonFields
  | cons : List Char → MiniJson → MiniJsonFields → MiniJsonFields
end

/-- Python truthiness of `dig_next_data`'s result (`bool(nd)`): `None`, an
empty dict and an empty string are falsy. -/
def jsonTruthy : Option MiniJson → Bool
  | none => false
  | some (.jstr []) => false
  | some (.jobj .nil) => false
  | some _ => true

mutual
/-- Modelled from the spec: the Structured-Data Augmenter's serialization of
the JSON payload "back to a flat text representation" (§4.4).  The source
has no such serializer — `dig_next_data`'s result is never flattened or
appended — so this definition follows the spec's words and exists only to
compare the spec's design with the code. -/
def flattenJsonSpec : MiniJson → List Char
  | .jstr s => s
  | .jobj l => flattenFieldsSpec l

/-- Modelled from the spec: flat text of a JSON object's fields (see
`flattenJsonSpec`). -/
def flattenFieldsSpec : MiniJsonFields → List Char
  | .nil => []
  | .cons k v rest => k ++ ' ' :: (flattenJsonSpec v ++ ' ' :: flattenFieldsSpec rest)
end

/-- Modelled from the spec: append the flattened structured blob to the
page text so that its values "become reachable by the same label-proximity
search used for the plain text" (§4.4). -/
def augmentSpec (text : List Char) (nd : Option MiniJson) : List Char :=
  match nd with
  | none => text
  | some j => text ++ ' ' :: flattenJsonSpec j

/-- `raw_payload` as assembled by `fetch_snapshot` (its exact keys). -/
structure RawPayload where
  nav : Option ℚ
  aum : Option ℚ
  shares : Option ℚ
  next_data_present : Bool
  url : List Char
deriving DecidableEq

/-- `EtfSnapshot` from the source. -/
structure EtfSnapshot where
  asof_date : PyDate
  nav : Option ℚ
  aum : Option ℚ
  shares_outstanding : Option ℚ
  source_url : List Char
  raw_payload : RawPayload
deriving DecidableEq

/-- Python's `x or y` on `Optional[float]`: `None` and `0.0` are falsy. -/
def pyOrFloat (a b : Option ℚ) : Option ℚ :=
  match a with
  | some x => if x = 0 then b else some x
  | none => b

def sharesLabel : List Char := cs "Shares Outstanding"

def aumLabel1 : List Char := cs "Assets Under Management"

def aumLabel2 : List Char := cs "Net Assets"

/-- The extraction stage of `fetch_snapshot`, over the flattened page text
`text` (the result of `soup.get_text(" ", strip=True)`), the parsed
`__NEXT_DATA__` payload `nd` (the result of `dig_next_data`), the fetch
URL, and `today` (the value of `dt.datetime.utcnow().date()` at the call). -/
def fetchSnapshotCore (text : List Char) (nd : Option MiniJson) (url : List Char)
    (today : PyDate) : EtfSnapshot :=
  let asof := (extract_asof_date text).getD today
  let nav := extract_nav text
  let shares := extract_labeled_amount text sharesLabel
  let aum := pyOrFloat (extract_labeled_amount text aumLabel1)
    (extract_labeled_amount text aumLabel2)
  { asof_date := asof
    nav := nav
    aum := aum
    shares_outstanding := shares
    source_url := url
    raw_payload :=
      { nav := nav, aum := aum, shares := shares
        next_data_present := jsonTruthy nd, url := url } }

/-- The synthetic end-to-end page text of the spec's scenario. -/
def c1Text : List Char :=
  cs "NAV $145.42 Assets Under Management $93,602.55 M Shares Outstanding 643.66 M As of Jan 15, 2026"

/-- AUM label present but not followed by an amount; the fallback label
carries the value. -/
def c3Text : List Char := cs "Assets Under Management overview. Net Assets 5 M"

/-- A page whose human-readable text has no figures. -/
def c5Text : List Char := cs "Sector ETF overview page"

/-- A structured blob carrying the AUM figure that is absent from `c5Text`. -/
def c5Json : MiniJson := .jobj (.cons aumLabel1 (.jstr (cs "5 M")) .nil)

def c6TextDated : List Char := cs "As of Jan 15, 2026"

def c6TextUndated : List Char := cs "random text with no date"

/-! ### Claim theorems -/

/-- C1: over the flattened synthetic page text containing "NAV $145.42",
"Assets Under Management $93,602.55 M", "Shares Outstanding 643.66 M" and
"As of Jan 15, 2026", the extraction stage of `fetch_snapshot` assembles a
snapshot with `nav = 145.42`, `aum = 93602550000`,
`shares_outstanding = 643660000` and `asof_date = 2026-01-15`. -/
theorem c1_end_to_end_snapshot (nd : Option MiniJson) (url : List Char) (today : PyDate) :
    (fetchSnapshotCore c1Text nd url today).nav = some (14542 / 100 : ℚ)
  ∧ (fetchSnapshotCore c1Text nd url today).aum = some 93602550000
  ∧ (fetchSnapshotCore c1Text nd url today).shares_outstanding = some 643660000
  ∧ (fetchSnapshotCore c1Text nd url today).asof_date = ⟨2026, 1, 15⟩ := by
  refine ⟨?_, ?_, ?_, ?_⟩
  · show extract_nav c1Text = some (14542 / 100 : ℚ)
    decide
  · show pyOrFloat (extract_labeled_amount c1Text aumLabel1)
      (extract_labeled_amount c1Text aumLabel2) = some 93602550000
    decide
  · show extract_labeled_amount c1Text sharesLabel = some 643660000
    decide
  · show (extract_asof_date c1Text).getD today = ⟨2026, 1, 15⟩
    rw [show extract_asof_date c1Text = some ⟨2026, 1, 15⟩ from by decide]
    rfl

/-- C2 counterexample: the claim says the K/M/B unit suffix is optional and
that the amount parser returns 145.42 for the unitless input "145.42"; in
fact `AMT_RE` requires the unit letter, so the parser matches nothing and
returns `None` there. -/
theorem c2_no_unit_cex :
    parse_amount (cs "145.42") = none
  ∧ ¬ parse_amount (cs "145.42") = some (14542 / 100 : ℚ) := by decide

/-- C2 amended: "$93,602.55 M" parses to 93602.55e6 and "643.66 M" to
643.66e6, but the unit suffix is mandatory in `AMT_RE`, so "145.42" with no
unit yields `None` from the parser; the absent-unit multiplier 1 exists
only in `unit_to_mult`/`parse_unit_amount` applied directly with an empty
unit string, which the matcher never produces. -/
theorem c2_amount_parser_amended :
    parse_amount (cs "$93,602.55 M") = some 93602550000
  ∧ parse_amount (cs "643.66 M") = some 643660000
  ∧ parse_amount (cs "145.42") = none
  ∧ parse_unit_amount (cs "145.42") [] = some (14542 / 100 : ℚ)
  ∧ unit_to_mult [] = 1 := by decide

/-- C3 counterexample: the first AUM label phrase occurs in the text and no
amount follows it, yet the assembled aum is not `None`: the code falls
through (via Python `or`) to the "Net Assets" label, which yields 5e6. -/
theorem c3_fallthrough_cex :
    containsCI aumLabel1 c3Text = true
  ∧ extract_labeled_amount c3Text aumLabel1 = none
  ∧ (fetchSnapshotCore c3Text none [] ⟨2026, 1, 1⟩).aum = some 5000000 := by decide

/-- C3 amended: when no occurrence of the first AUM label is followed by a
parseable amount (so `extract_labeled_amount` returns `None` for it), the
assembler does fall through to the next candidate label phrase: the
snapshot's aum equals the extraction for "Net Assets". -/
theorem c3_aum_or_chain (text : List Char) (nd : Option MiniJson) (url : List Char)
    (today : PyDate) (h : extract_labeled_amount text aumLabel1 = none) :
    (fetchSnapshotCore text nd url today).aum = extract_labeled_amount text aumLabel2 := by
  show pyOrFloat (extract_labeled_amount text aumLabel1)
    (extract_labeled_amount text aumLabel2) = extract_labeled_amount text aumLabel2
  rw [h]
  rfl

theorem c3_aum_or_chain_witness :
    extract_labeled_amount c3Text aumLabel1 = none
  ∧ (fetchSnapshotCore c3Text none [] ⟨2026, 1, 1⟩).aum = extract_labeled_amount c3Text aumLabel2 :=
  ⟨by decide, c3_aum_or_chain c3Text none [] ⟨2026, 1, 1⟩ (by decide)⟩

/-- C4: when none of the three date patterns produces a date (each
`tryPat` absorbs both regex non-matches and captured tokens that fail
calendar parsing), the assembled snapshot's `asof_date` is the processing
date passed as `today`; the date resolution is a total function and so
never raises. -/
theorem c4_asof_fallback_is_today (text : List Char) (nd : Option MiniJson) (url : List Char)
    (today : PyDate) (h1 : tryPat1 (collapseWs text) = none)
    (h2 : tryPat2 (collapseWs text) = none) (h3 : tryPat3 (collapseWs text) = none) :
    (fetchSnapshotCore text nd url today).asof_date = today := by
  show (extract_asof_date text).getD today = today
  unfold extract_asof_date extract_asof_core extractP23
  rw [h1, h2, h3]
  rfl

theorem c4_asof_fallback_is_today_witness :
    tryPat1 (collapseWs c6TextUndated) = none
  ∧ tryPat2 (collapseWs c6TextUndated) = none
  ∧ tryPat3 (collapseWs c6TextUndated) = none
  ∧ (fetchSnapshotCore c6TextUndated none [] ⟨2026, 3, 4⟩).asof_date = ⟨2026, 3, 4⟩ :=
  ⟨by decide, by decide, by decide,
   c4_asof_fallback_is_today c6TextUndated none [] ⟨2026, 3, 4⟩ (by decide) (by decide) (by decide)⟩

/-- C5 counterexample: a parseable structured blob carrying the AUM figure
(absent from the page text) is truthy and, under the spec's append-the-
flattened-blob design, would make the label search find 5e6; but the code
never appends the blob to the searched text, so the assembled aum is
`None` — only the `next_data_present` flag records the blob. -/
theorem c5_blob_not_searched_cex :
    jsonTruthy (some c5Json) = true
  ∧ extract_labeled_amount (augmentSpec c5Text (some c5Json)) aumLabel1 = some 5000000
  ∧ (fetchSnapshotCore c5Text (some c5Json) [] ⟨2026, 1, 1⟩).aum = none
  ∧ (fetchSnapshotCore c5Text (some c5Json) [] ⟨2026, 1, 1⟩).raw_payload.next_data_present
      = true := by decide

/-- C5 amended: the parsed structured blob is never serialized into the
searched text; its only effect on the snapshot is the diagnostics flag
`next_data_present` — every extracted field is independent of the blob. -/
theorem c5_blob_only_sets_flag (text : List Char) (nd ndOther : Option MiniJson)
    (url : List Char) (today : PyDate) :
    (fetchSnapshotCore text nd url today).nav = (fetchSnapshotCore text ndOther url today).nav
  ∧ (fetchSnapshotCore text nd url today).aum = (fetchSnapshotCore text ndOther url today).aum
  ∧ (fetchSnapshotCore text nd url today).shares_outstanding
      = (fetchSnapshotCore text ndOther url today).shares_outstanding
  ∧ (fetchSnapshotCore text nd url today).asof_date
      = (fetchSnapshotCore text ndOther url today).asof_date
  ∧ (fetchSnapshotCore text nd url today).raw_payload.next_data_present = jsonTruthy nd :=
  ⟨rfl, rfl, rfl, rfl, rfl⟩

/-- C6 counterexample: a page-dated snapshot and a fallback-dated snapshot
have identical diagnostics (`raw_payload`), so no diagnostics flag
distinguishes the processing-time fallback from a page-sourced date. -/
theorem c6_fallback_indistinguishable_cex :
    extract_asof_date c6TextDated = some ⟨2026, 1, 15⟩
  ∧ extract_asof_date c6TextUndated = none
  ∧ (fetchSnapshotCore c6TextUndated none [] ⟨2026, 3, 4⟩).asof_date = ⟨2026, 3, 4⟩
  ∧ (fetchSnapshotCore c6TextDated none [] ⟨2026, 3, 4⟩).raw_payload
      = (fetchSnapshotCore c6TextUndated none [] ⟨2026, 3, 4⟩).raw_payload := by decide

/-- C6 amended: the snapshot's diagnostics (`raw_payload`) contain no
fallback marker at all: the payload is exactly the three field guesses,
the structured-data flag and the URL, and it does not depend on the
processing date or on whether the date came from the page. -/
theorem c6_no_fallback_flag_in_diagnostics (text : List Char) (nd : Option MiniJson)
    (url : List Char) (t1 t2 : PyDate) :
    (fetchSnapshotCore text nd url t1).raw_payload = (fetchSnapshotCore text nd url t2).raw_payload
  ∧ (fetchSnapshotCore text nd url t1).raw_payload =
      ⟨extract_nav text,
       pyOrFloat (extract_labeled_amount text aumLabel1) (extract_labeled_amount text aumLabel2),
       extract_labeled_amount text sharesLabel, jsonTruthy nd, url⟩ :=
  ⟨rfl, rfl⟩

/-- C7 counterexample: a single non-whitespace character between the label
and its value defeats `extract_labeled_amount` — there is no 400–600
character search window there, and punctuation between label and value is
not tolerated. -/
theorem c7_label_punctuation_cex :
    extract_labeled_amount (cs "Shares Outstanding: 643.66 M") sharesLabel = none := by decide

/-- C7 amended: `extract_labeled_amount` requires the amount to follow the
label separated by whitespace only (no window at all); only `extract_nav`
searches a window after its label, of 200 characters (not 400–600), inside
which arbitrary intervening characters are tolerated. -/
theorem c7_separator_and_window_amended :
    extract_labeled_amount (cs "Shares Outstanding 643.66 M") sharesLabel = some 643660000
  ∧ extract_labeled_amount (cs "Shares Outstanding: 643.66 M") sharesLabel = none
  ∧ extract_nav (cs "NAV (net asset value per share): $145.42") = some (14542 / 100 : ℚ)
  ∧ extract_nav (cs "NAV " ++ List.replicate 100 'x' ++ cs " $145.42") = some (14542 / 100 : ℚ)
  ∧ extract_nav (cs "NAV " ++ List.replicate 205 'x' ++ cs " $145.42") = none := by decide

/-- C8: in the date resolver a regex match whose captured tokens fail
calendar parsing is a non-match: if pattern 1 matched but its capture fails
to parse, the resolver's result is that of patterns 2-then-3; if pattern 2
matched but its capture fails to parse, that tail's result is pattern 3's;
and the resolver is total, so it never raises. -/
theorem c8_date_parse_failure_falls_through (t : List Char) :
    (∀ c, searchPat1 t = some c → parseDate1 c = none → extract_asof_core t = extractP23 t)
  ∧ (∀ c, searchPat2 t = some c → parseDate2 c = none → extractP23 t = tryPat3 t) := by
  constructor
  · intro c h1 h2
    have hnone : tryPat1 t = none := by
      show (searchPat1 t).bind parseDate1 = none
      rw [h1]
      exact h2
    show (match tryPat1 t with | some d => some d | none => extractP23 t) = extractP23 t
    rw [hnone]
  · intro c h1 h2
    have hnone : tryPat2 t = none := by
      show (searchPat2 t).bind parseDate2 = none
      rw [h1]
      exact h2
    show (match tryPat2 t with | some d => some d | none => tryPat3 t) = tryPat3 t
    rw [hnone]

def c8Text : List Char := cs "Fund Net Asset Value as of Feb 30 2026"

theorem c8_date_parse_failure_falls_through_witness :
    searchPat1 (collapseWs c8Text) = some ⟨cs "Feb", cs "30", cs "2026"⟩
  ∧ parseDate1 ⟨cs "Feb", cs "30", cs "2026"⟩ = none
  ∧ extract_asof_core (collapseWs c8Text) = extractP23 (collapseWs c8Text)
  ∧ searchPat2 (collapseWs c8Text) = some ⟨cs "Feb", cs "30", cs "2026"⟩
  ∧ parseDate2 ⟨cs "Feb", cs "30", cs "2026"⟩ = none
  ∧ extractP23 (collapseWs c8Text) = tryPat3 (collapseWs c8Text) :=
  ⟨by decide, by decide,
   (c8_date_parse_failure_falls_through (collapseWs c8Text)).1 ⟨cs "Feb", cs "30", cs "2026"⟩
     (by decide) (by decide),
   by decide, by decide,
   (c8_date_parse_failure_falls_through (collapseWs c8Text)).2 ⟨cs "Feb", cs "30", cs "2026"⟩
     (by decide) (by decide)⟩

/-- C9: the extraction stage is deterministic in the input text: every
snapshot field except `asof_date` is independent of the processing date
`today`, and `asof_date` too is independent of it whenever the date was
resolved from the page text — the processing-date fallback is the only
source of run-to-run variation. -/
theorem c9_extraction_deterministic (text : List Char) (nd : Option MiniJson) (url : List Char)
    (t1 t2 : PyDate) :
    (fetchSnapshotCore text nd url t1).nav = (fetchSnapshotCore text nd url t2).nav
  ∧ (fetchSnapshotCore text nd url t1).aum = (fetchSnapshotCore text nd url t2).aum
  ∧ (fetchSnapshotCore text nd url t1).shares_outstanding
      = (fetchSnapshotCore text nd url t2).shares_outstanding
  ∧ (fetchSnapshotCore text nd url t1).source_url = (fetchSnapshotCore text nd url t2).source_url
  ∧ (fetchSnapshotCore text nd url t1).raw_payload = (fetchSnapshotCore text nd url t2).raw_payload
  ∧ ∀ d, extract_asof_date text = some d →
      (fetchSnapshotCore text nd url t1).asof_date = (fetchSnapshotCore text nd url t2).asof_date := by
  refine ⟨rfl, rfl, rfl, rfl, rfl, ?_⟩
  intro d hd
  show (extract_asof_date text).getD t1 = (extract_asof_date text).getD t2
  rw [hd]
  rfl

theorem c9_extraction_deterministic_witness :
    extract_asof_date c6TextDated = some ⟨2026, 1, 15⟩
  ∧ (fetchSnapshotCore c6TextDated none [] ⟨2025, 1, 1⟩).asof_date
      = (fetchSnapshotCore c6TextDated none [] ⟨2024, 5, 5⟩).asof_date :=
  ⟨by decide,
   (c9_extraction_deterministic c6TextDated none [] ⟨2025, 1, 1⟩ ⟨2024, 5, 5⟩).2.2.2.2.2
     ⟨2026, 1, 15⟩ (by decide)⟩

/-! ### C10: the dollar sign in NAV extraction -/

theorem mem_collapseWs {c : Char} : ∀ s : List Char, c ∈ collapseWs s → c = ' ' ∨ c ∈ s := by
  intro s
  induction s with
  | nil => intro h; simp [collapseWs] at h
  | cons a tail ih =>
    cases tail with
    | nil =>
      intro h
      simp only [collapseWs] at h
      split at h
      · simp at h; exact Or.inl h
      · simp at h; exact Or.inr (by simp [h])
    | cons b rest =>
      intro h
      simp only [collapseWs] at h
      split at h
      · split at h
        · rcases ih h with h' | h'
          · exact Or.inl h'
          · exact Or.inr (List.mem_cons_of_mem _ h')
        · rcases List.mem_cons.mp h with h' | h'
          · exact Or.inl h'
          · rcases ih h' with h'' | h''
            · exact Or.inl h''
            · exact Or.inr (List.mem_cons_of_mem _ h'')
      · rcases List.mem_cons.mp h with h' | h'
        · exact Or.inr (by simp [h'])
        · rcases ih h' with h'' | h''
          · exact Or.inl h''
          · exact Or.inr (List.mem_cons_of_mem _ h'')

theorem matchLitCI_subset :
    ∀ (p s r : List Char), matchLitCI p s = some r → ∀ {x : Char}, x ∈ r → x ∈ s := by
  intro p
  induction p with
  | nil =>
    intro s r h x hx
    simp only [matchLitCI, Option.some.injEq] at h
    exact h ▸ hx
  | cons a ps ih =>
    intro s r h x hx
    cases s with
    | nil => exact absurd h (by simp [matchLitCI])
    | cons b tail =>
      simp only [matchLitCI] at h
      split at h
      · exact List.mem_cons_of_mem _ (ih tail r h hx)
      · exact absurd h (by simp)

theorem matchDollarNum_none {s : List Char} (h : '$' ∉ s) : matchDollarNum s = none := by
  cases s with
  | nil => rfl
  | cons c r =>
    have hc : ¬ c = '$' := fun e => h (by simp [e])
    simp [matchDollarNum, hc]

theorem gapDollarNum_none : ∀ (n : Nat) {s : List Char}, '$' ∉ s → gapDollarNum n s = none := by
  intro n
  induction n with
  | zero =>
    intro s h
    show matchDollarNum s = none
    exact matchDollarNum_none h
  | succ m ih =>
    intro s h
    simp only [gapDollarNum, matchDollarNum_none h]
    cases s with
    | nil => rfl
    | cons c rest => exact ih (fun hm => h (List.mem_cons_of_mem _ hm))

theorem searchNav1_none : ∀ (s : List Char) (b : Bool), '$' ∉ s → searchNav1 b s = none := by
  intro s
  induction s with
  | nil => intro b _; rfl
  | cons c rest ih =>
    intro b h
    have hrest : '$' ∉ rest := fun hm => h (List.mem_cons_of_mem _ hm)
    have hnav : matchNavHere (c :: rest) = none := by
      cases hlit : matchLitCI navLit (c :: rest) with
      | none => simp [matchNavHere, hlit]
      | some r =>
        have hr : '$' ∉ r := fun hm => h (matchLitCI_subset _ _ _ hlit hm)
        simp [matchNavHere, hlit, gapDollarNum_none 200 hr]
    cases b with
    | false => simp [searchNav1, hnav, ih (isWordCh c) hrest]
    | true => simp [searchNav1, ih (isWordCh c) hrest]

theorem searchNav2_none : ∀ s : List Char, '$' ∉ s → searchBy matchNav2Here s = none := by
  intro s
  induction s with
  | nil =>
    intro _
    show matchNav2Here [] = none
    rfl
  | cons c rest ih =>
    intro h
    have hrest : '$' ∉ rest := fun hm => h (List.mem_cons_of_mem _ hm)
    have hhere : matchNav2Here (c :: rest) = none := by
      unfold matchNav2Here
      cases hlit : matchLitCI navFullLit (c :: rest) with
      | none => rfl
      | some r =>
        exact gapDollarNum_none 200 (fun hm => h (matchLitCI_subset _ _ _ hlit hm))
    simp only [searchBy]
    rw [hhere]
    exact ih hrest

def c10Text : List Char := cs "NAV 145.42 fee $0.09"

/-- C10 counterexample: "NAV" is followed here by the number 145.42 with no
dollar sign before it inside the search window, yet NAV extraction does not
return `None`: the window search skips ahead to the unrelated dollar amount
$0.09 and extracts 0.09. -/
theorem c10_dollar_elsewhere_cex :
    containsCI navLit c10Text = true
  ∧ extract_nav c10Text = some (9 / 100 : ℚ)
  ∧ ¬ extract_nav c10Text = none := by decide

/-- C10 amended: the NAV extractor requires a literal dollar sign before
the value it extracts: on any text containing no `$` character at all, NAV
extraction returns `None` — a NAV stated without a currency symbol is never
extracted; however, when some other `$`-prefixed number lies within the
200-character window, that value is extracted rather than `None` being
returned. -/
theorem c10_nav_requires_dollar (text : List Char) (h : '$' ∉ text) :
    extract_nav text = none := by
  have hc : '$' ∉ collapseWs text := fun hm => by
    rcases mem_collapseWs _ hm with e | hmem
    · exact absurd e (by decide)
    · exact h hmem
  show (match searchNav1 false (collapseWs text) with
    | some num => pyFloatNum num
    | none =>
      match searchBy matchNav2Here (collapseWs text) with
      | some num => pyFloatNum num
      | none => none) = none
  rw [searchNav1_none _ false hc, searchNav2_none _ hc]

theorem c10_nav_requires_dollar_witness :
    '$' ∉ cs "NAV 145.42"
  ∧ extract_nav (cs "NAV 145.42") = none :=
  ⟨by decide, c10_nav_requires_dollar (cs "NAV 145.42") (by decide)⟩

end SectorETF
